import Mathlib

/-!
Verification of the package-acquisition core of the SA package manager.

Shallow embedding of the Rust modules:
  * `src/sa/src/modules/models.rs`   — data model (records below)
  * `src/sa/src/modules/security.rs` — `SecurityScanner`
  * `src/sa/src/modules/cache.rs`    — `PackageCache`, `install_package_with_cache`
  * `src/sa/src/modules/mirrors.rs`  — `MirrorManager`
  * `src/sa/src/modules/docker.rs`   — `DockerManager`

Strings model Rust `&str`/`String`; Rust byte-wise lexicographic comparison of
UTF-8 strings coincides with code-point lexicographic comparison, modelled on
`List Char`.  Timestamps (`DateTime<Utc>`) are modelled as `Nat` instants; the
rfc3339 serialisation round trip of `chrono` preserves the instant, so cached
timestamps are carried through unchanged.  File-system paths are modelled as
`String` (the code only builds paths from valid UTF-8 components).
-/

namespace SA

/-! ## Data model (models.rs lines 210-249) -/

structure PackageMetadata where
  description : String
  author : String
  license : String
  dependencies : List String
  keywords : List String
  home_page : String
deriving DecidableEq, Repr

structure CachedPackage where
  name : String
  version : String
  hash : String
  download_url : String
  cached_at : Nat
  file_path : String
  metadata : PackageMetadata
deriving DecidableEq, Repr

structure SecurityVulnerability where
  id : String
  package : String
  version_range : String
  severity : String
  description : String
  fixed_version : Option String
  published_at : Nat
deriving DecidableEq, Repr

structure Mirror where
  name : String
  url : String
  is_default : Bool
  last_tested : Option Nat
  is_active : Bool
deriving DecidableEq, Repr

/-! ## Lexicographic string comparison on `List Char`

Rust `&str` comparison (`<`, `<=`, `>`, `>=`) is byte-wise lexicographic on the
UTF-8 encoding, which orders strings exactly like code-point-wise lexicographic
order, embedded here directly on `List Char`. -/

/-- Strict lexicographic order on character lists (Rust `str::lt`). -/
def ltC : List Char → List Char → Bool
  | [], [] => false
  | [], _ :: _ => true
  | _ :: _, [] => false
  | a :: as, b :: bs => if a < b then true else if b < a then false else ltC as bs

/-- Non-strict lexicographic order (Rust `str::le`): total order, so `x ≤ y ↔ ¬ y < x`. -/
def leC (x y : List Char) : Bool := !(ltC y x)

/-- `hasPre pat s`: `pat` is a prefix of `s` (Rust `str::starts_with`). -/
def hasPre : List Char → List Char → Bool
  | [], _ => true
  | _ :: _, [] => false
  | a :: ps, b :: s => a == b && hasPre ps s

/-- `hasSub pat s`: `pat` occurs as a contiguous substring of `s`
(Rust `str::contains` with a string pattern). -/
def hasSub (pat : List Char) : List Char → Bool
  | [] => hasPre pat []
  | c :: rest => hasPre pat (c :: rest) || hasSub pat rest

/-- Rust `haystack.contains(needle)`. -/
def strContains (haystack needle : String) : Bool :=
  hasSub needle.data haystack.data

/-! ## SecurityScanner (security.rs) -/

/-- `SecurityScanner::version_matches` (security.rs lines 104-125), on character
lists.  The branch order follows the source: `"*"`, then `>=`, `<=`, `<`, `>`
prefixes, else exact string equality. -/
def vmCore (version range : List Char) : Bool :=
  if range == ['*'] then true
  else if hasPre ['>', '='] range then leC (range.drop 2) version
  else if hasPre ['<', '='] range then leC version (range.drop 2)
  else if hasPre ['<'] range then ltC version (range.drop 1)
  else if hasPre ['>'] range then ltC (range.drop 1) version
  else version == range

/-- `SecurityScanner::version_matches` on strings. -/
def version_matches (version range : String) : Bool :=
  vmCore version.data range.data

/-- `SecurityScanner::scan_package` (security.rs lines 94-102): every advisory
whose package name matches exactly and whose range contains the version. -/
def scan_package (db : List SecurityVulnerability) (package_name version : String) :
    List SecurityVulnerability :=
  db.filter (fun vuln => vuln.package == package_name && version_matches version vuln.version_range)

/-- The range-matching rule exactly as the specification words it: a range
expression is one of the five forms `*`, `>=X`, `<=X`, `<X`, `>X` (read with
maximal munch, so `<=X` is not an instance of `<X`), compared under plain
string ordering, and any other literal requires string equality. -/
def rangeMatchSpec (v r : List Char) : Bool :=
  match r with
  | ['*'] => true
  | '>' :: '=' :: x => leC x v
  | '<' :: '=' :: x => leC v x
  | '<' :: x => ltC v x
  | '>' :: x => ltC x v
  | _ => v == r

theorem hasPre_iff (p s : List Char) : hasPre p s = true ↔ ∃ t, s = p ++ t := by
  induction p generalizing s with
  | nil => simp [hasPre]
  | cons a ps ih =>
    cases s with
    | nil => simp [hasPre]
    | cons b t =>
      simp only [hasPre, Bool.and_eq_true, beq_iff_eq, ih, List.cons_append, List.cons.injEq]
      constructor
      · rintro ⟨rfl, u, rfl⟩
        exact ⟨u, rfl, rfl⟩
      · rintro ⟨u, rfl, rfl⟩
        exact ⟨rfl, u, rfl⟩

theorem vmCore_eq_rangeMatchSpec (v r : List Char) : vmCore v r = rangeMatchSpec v r := by
  rcases r with _ | ⟨a, _ | ⟨b, x⟩⟩
  · rfl
  · -- one-character ranges
    by_cases h1 : a = '*'
    · subst h1; rfl
    · by_cases h2 : a = '<'
      · subst h2; rfl
      · by_cases h3 : a = '>'
        · subst h3; rfl
        · have h2' : ('<' : Char) ≠ a := fun h => h2 h.symm
          have h3' : ('>' : Char) ≠ a := fun h => h3 h.symm
          simp only [vmCore, rangeMatchSpec, hasPre, List.cons.injEq, beq_iff_eq]
          simp [h1, h2, h3, h2', h3']
  · -- ranges of length at least two
    by_cases h1 : a = '>'
    · subst h1
      by_cases h2 : b = '='
      · subst h2; rfl
      · have h2' : ('=' : Char) ≠ b := fun h => h2 h.symm
        simp only [vmCore, rangeMatchSpec]
        simp [hasPre, h2, h2']
    · by_cases h2 : a = '<'
      · subst h2
        by_cases h3 : b = '='
        · subst h3; rfl
        · have h3' : ('=' : Char) ≠ b := fun h => h3 h.symm
          simp only [vmCore, rangeMatchSpec]
          simp [hasPre, h3, h3']
      · have h1' : ('>' : Char) ≠ a := fun h => h1 h.symm
        have h2' : ('<' : Char) ≠ a := fun h => h2 h.symm
        simp only [vmCore, rangeMatchSpec]
        simp [hasPre, h1, h2, h1', h2']

/-! ## Vulnerability database refresh (security.rs lines 33-92)

The upstream feed is JSON; `update_vulnerability_db` walks the top-level object
(package name → array of advisory objects) and builds the new list.  The
network interaction is modelled by an `HttpResponse` input: `netErr` is a
failing `send()`, `resp ok body` is a received response with success flag `ok`
and `body = none` when `response.json()` fails to deserialize. -/

inductive Json where
  | null : Json
  | bool (b : Bool) : Json
  | num (n : Int) : Json
  | str (s : String) : Json
  | arr (items : List Json) : Json
  | obj (fields : List (String × Json)) : Json

/-- Rust `Value::as_str`. -/
def Json.asStr : Json → Option String
  | .str s => some s
  | _ => none

/-- Rust `Value::as_array`. -/
def Json.asArr : Json → Option (List Json)
  | .arr items => some items
  | _ => none

/-- Rust `map.get(key)` on a JSON object (serde object keys are unique). -/
def jsonGet (fields : List (String × Json)) (key : String) : Option Json :=
  (fields.find? (fun kv => kv.1 == key)).map (fun kv => kv.2)

/-- One advisory object converted to `SecurityVulnerability`
(security.rs lines 54-74): the severity is the literal `"medium"` and
`published_at` is the wall clock `now`, exactly as in the source. -/
def parseVuln (package_name : String) (now : Nat) (vuln : Json) :
    Option SecurityVulnerability :=
  match vuln with
  | .obj vuln_obj => some
      { id := ((jsonGet vuln_obj "id").bind Json.asStr).getD "unknown"
        package := package_name
        version_range :=
          ((((jsonGet vuln_obj "specs").bind Json.asArr).bind List.head?).bind
            Json.asStr).getD "*"
        severity := "medium"
        description :=
          ((jsonGet vuln_obj "advisory").bind Json.asStr).getD "No description available"
        fixed_version := none
        published_at := now }
  | _ => none

/-- The double loop of security.rs lines 50-80: every array entry of every
top-level field that is itself an object becomes one record; a non-object
top-level value yields the empty list. -/
def parseVulnList (now : Nat) (data : Json) : List SecurityVulnerability :=
  match data with
  | .obj packages =>
      packages.flatMap (fun kv =>
        match kv.2 with
        | .arr vuln_array => vuln_array.filterMap (parseVuln kv.1 now)
        | _ => [])
  | _ => []

inductive HttpResponse where
  | netErr : HttpResponse
  | resp (statusSuccess : Bool) (body : Option Json) : HttpResponse

/-- In-memory and persisted vulnerability index of a `SecurityScanner`. -/
structure ScannerState where
  vulnerability_db : List SecurityVulnerability
  persisted : List SecurityVulnerability
deriving DecidableEq, Repr

/-- `SecurityScanner::update_vulnerability_db` (security.rs lines 33-92).
A network error or a failing `response.json()` propagates with `?` before any
assignment; a success status installs the fully built new list in memory and
on disk; a non-success status falls through to the final `Ok(())` with the
index untouched. -/
def update_vulnerability_db (st : ScannerState) (now : Nat) (response : HttpResponse) :
    Except String Unit × ScannerState :=
  match response with
  | .netErr => (.error "network error", st)
  | .resp statusSuccess body =>
    if statusSuccess then
      match body with
      | none => (.error "malformed payload", st)
      | some data =>
          let vulnerabilities := parseVulnList now data
          (.ok (), { vulnerability_db := vulnerabilities, persisted := vulnerabilities })
    else
      (.ok (), st)

/-! ## Cache store (cache.rs lines 12-151)

The SQLite table `cached_packages` (primary key `(name, version)`) is modelled
as a list of rows, and the cache directory as the list of paths that exist on
disk.  `INSERT OR REPLACE` and `DELETE` act on the key, so the row list holds
at most one row per key when produced by these operations; the lemmas below do
not need that invariant. -/

/-- The conventional artifact path `<cache-dir>/<name>-<version>.whl`
(cache.rs line 110). -/
def wheelPath (cacheDir name version : String) : String :=
  cacheDir ++ "/" ++ name ++ "-" ++ version ++ ".whl"

structure CacheState where
  cacheDir : String
  db : List CachedPackage
  filesOnDisk : List String
deriving DecidableEq, Repr

/-- The SQL `WHERE name = ?1 AND version = ?2` predicate. -/
def keyMatches (name version : String) (r : CachedPackage) : Bool :=
  r.name == name && r.version == version

/-- The `SELECT ... WHERE` row lookup of cache.rs lines 48-68. -/
def findRow (db : List CachedPackage) (name version : String) : Option CachedPackage :=
  db.find? (keyMatches name version)

/-- `PackageCache::remove_package` (cache.rs lines 102-116): delete the rows
for the key, then delete the conventional wheel file if it exists. -/
def remove_package (st : CacheState) (name version : String) : CacheState :=
  { st with
    db := st.db.filter (fun r => !(keyMatches name version r))
    filesOnDisk := st.filesOnDisk.filter (fun p => p != wheelPath st.cacheDir name version) }

/-- `PackageCache::get_package` (cache.rs lines 47-78): query the row; if the
recorded artifact file still exists return the record, otherwise clean up the
stale entry (errors of the cleanup are discarded) and return `none`.  Every
failure path of the Rust function is turned into `None` by `.ok()?`, so
absence is a value, never an error. -/
def get_package (st : CacheState) (name version : String) :
    Option CachedPackage × CacheState :=
  match findRow st.db name version with
  | none => (none, st)
  | some row =>
    if st.filesOnDisk.contains row.file_path then (some row, st)
    else (none, remove_package st name version)

/-- `PackageCache::store_package` (cache.rs lines 81-100): `INSERT OR REPLACE`
keyed on `(name, version)`. -/
def store_package (st : CacheState) (package : CachedPackage) : CacheState :=
  { st with
    db := st.db.filter (fun r => !(keyMatches package.name package.version r)) ++ [package] }

/-! ## Mirror registry (mirrors.rs) -/

/-- The built-in mirror seeded by `MirrorManager::new` (mirrors.rs lines 24-43). -/
def seedMirror : Mirror :=
  { name := "pypi"
    url := "https://pypi.org/simple/"
    is_default := true
    last_tested := none
    is_active := true }

/-- The three states the persisted `mirrors.json` can be in at startup. -/
inductive ConfigFile where
  | absent : ConfigFile
  | unparseable : ConfigFile
  | parsed (mirrors : List Mirror) : ConfigFile
deriving DecidableEq, Repr

/-- `MirrorManager::new` (mirrors.rs lines 14-46): a missing file or a serde
parse failure seeds the single built-in mirror; a parseable file is taken
verbatim, whatever it contains. -/
def mirrorManagerNew (cfg : ConfigFile) : List Mirror :=
  match cfg with
  | .absent => [seedMirror]
  | .unparseable => [seedMirror]
  | .parsed mirrors => mirrors

/-- `MirrorManager::add_mirror` (mirrors.rs lines 48-65): when `set_default`
is set, clear `is_default` on every existing mirror, then push the new one. -/
def add_mirror (mirrors : List Mirror) (name url : String) (set_default : Bool) :
    List Mirror :=
  let cleared :=
    if set_default then mirrors.map (fun m => { m with is_default := false }) else mirrors
  cleared ++
    [{ name := name, url := url, is_default := set_default, last_tested := none,
       is_active := true }]

/-- `MirrorManager::remove_mirror` (mirrors.rs lines 67-71): `retain` keeps
every mirror whose name differs. -/
def remove_mirror (mirrors : List Mirror) (name : String) : List Mirror :=
  mirrors.filter (fun m => m.name != name)

/-- `MirrorManager::get_default_mirror` (mirrors.rs lines 74-76). -/
def get_default_mirror (mirrors : List Mirror) : Option Mirror :=
  mirrors.find? (fun m => m.is_default && m.is_active)

/-- Number of mirrors carrying the default flag. -/
def countDefault (mirrors : List Mirror) : Nat :=
  (mirrors.filter (fun m => m.is_default)).length

/-- A sequence of `add_mirror` calls, each given as (name, url, set_default). -/
def applyAdds (mirrors : List Mirror) (ops : List (String × String × Bool)) : List Mirror :=
  ops.foldl (fun ms op => add_mirror ms op.1 op.2.1 op.2.2) mirrors

/-! ## Acquisition pipeline (cache.rs lines 153-195)

`install_package_with_cache` is the orchestration entry point called by the
`add` and `run` commands (main.rs).  Its external effects are modelled by a
`PipelineState` (requirements.txt content, the `.sa_env` directory, the cache
store) plus an `ExecEnv` oracle giving the outcomes of the spawned
subprocesses.  Every external call the function makes is recorded as a
`PipeEvent`, so traces witness which collaborators were consulted; the
constructors `cacheLookup`, `mirrorFetch`, `securityScan` and `cacheWrite`
exist for the state machine of the spec but are never emitted by this code, which
makes no such calls (its `_cache`, `_mirror_manager`, `_security_scanner` and
`_skip_security` parameters are unused). -/

inductive PipeEvent where
  | cacheLookup : PipeEvent
  | mirrorFetch : PipeEvent
  | securityScan : PipeEvent
  | venvCreate : PipeEvent
  | pipInstall : PipeEvent
  | cacheWrite : PipeEvent
deriving DecidableEq, Repr

/-- Outcomes of the external commands the pipeline can spawn. -/
structure ExecEnv where
  venvCreateOk : Bool
  pipInstallOk : String → Bool

/-- Mutable world touched by `install_package_with_cache`:
`requirementsTxt = none` models a missing or unreadable `requirements.txt`
(read with `unwrap_or_default`). -/
structure PipelineState where
  requirementsTxt : Option String
  venvExists : Bool
  cache : CacheState
deriving DecidableEq, Repr

/-- `ensure_venv_exists` (cache.rs lines 153-166): create `.sa_env` with
`python3 -m venv` only when absent; a failing creation is an error. -/
def ensure_venv_exists (env : ExecEnv) (st : PipelineState) :
    Except String Unit × PipelineState × List PipeEvent :=
  if st.venvExists then (.ok (), st, [])
  else if env.venvCreateOk then
    (.ok (), { st with venvExists := true }, [.venvCreate])
  else
    (.error "Failed to create virtual environment", st, [.venvCreate])

/-- `install_package_with_cache` (cache.rs lines 168-195).  Steps of the
source: (1) read `requirements.txt` (default empty), append the package when
not already a substring, and write the file back; (2) `ensure_venv_exists`;
(3) run `.sa_env/bin/pip install <package>`; non-success is the error
`Failed to install package: <package>`.  The cache, mirror-manager,
security-scanner and skip-security parameters are received but never used. -/
def install_package_with_cache (package : String) (env : ExecEnv)
    (_mirror_manager : List Mirror) (_security_scanner : List SecurityVulnerability)
    (_skip_security : Bool) (st : PipelineState) :
    Except String Unit × PipelineState × List PipeEvent :=
  let requirements := st.requirementsTxt.getD ""
  let st1 :=
    if strContains requirements package then st
    else { st with requirementsTxt := some (requirements ++ "\n" ++ package) }
  match ensure_venv_exists env st1 with
  | (.error e, st2, trace) => (.error e, st2, trace)
  | (.ok _, st2, trace) =>
    if env.pipInstallOk package then (.ok (), st2, trace ++ [.pipInstall])
    else (.error ("Failed to install package: " ++ package), st2, trace ++ [.pipInstall])

/-! ## Container execution (docker.rs lines 107-159)

`DockerManager::execute_in_environment` creates an ephemeral container, starts
it, follows its log stream, and finally removes it.  Each daemon interaction
can fail; a failure propagates with `?` immediately.  The exit status of the
executed command is never inspected by the source (only the log stream is
followed), so it is carried as an unused field. -/

inductive DockerEvent where
  | createContainer : DockerEvent
  | startContainer : DockerEvent
  | streamLogs : DockerEvent
  | removeContainer : DockerEvent
deriving DecidableEq, Repr

structure DockerExec where
  createOk : Bool
  startOk : Bool
  logsOk : Bool
  removeOk : Bool
  cmdExitZero : Bool
deriving DecidableEq, Repr

/-- `DockerManager::execute_in_environment` (docker.rs lines 107-159):
`create_container`, `start_container`, the `logs` stream and
`remove_container` run in sequence, each behind `?`; the trace records which
daemon calls were issued before returning. -/
def execute_in_environment (env : DockerExec) : Except String Unit × List DockerEvent :=
  if !env.createOk then
    (.error "create failed", [.createContainer])
  else if !env.startOk then
    (.error "start failed", [.createContainer, .startContainer])
  else if !env.logsOk then
    (.error "logs failed", [.createContainer, .startContainer, .streamLogs])
  else if !env.removeOk then
    (.error "remove failed",
      [.createContainer, .startContainer, .streamLogs, .removeContainer])
  else
    (.ok (), [.createContainer, .startContainer, .streamLogs, .removeContainer])

/-! ## Helper lemmas -/

theorem parseVuln_severity (p : String) (now : Nat) (vuln : Json) (v : SecurityVulnerability)
    (h : parseVuln p now vuln = some v) : v.severity = "medium" := by
  cases vuln <;> simp only [parseVuln] at h <;> try exact Option.noConfusion h
  case obj o =>
    injection h with h
    rw [← h]

theorem parseVulnList_severity (now : Nat) (data : Json) (v : SecurityVulnerability)
    (h : v ∈ parseVulnList now data) : v.severity = "medium" := by
  cases data <;> simp only [parseVulnList, List.not_mem_nil] at h
  case obj packages =>
    rw [List.mem_flatMap] at h
    obtain ⟨kv, _, hv⟩ := h
    cases hkv : kv.2 <;> rw [hkv] at hv <;> simp only [List.not_mem_nil] at hv
    case arr items =>
      rw [List.mem_filterMap] at hv
      obtain ⟨a, _, ha⟩ := hv
      exact parseVuln_severity _ _ _ _ ha

/-! ## C3: vulnerability-index refresh -/

def sampleVuln : SecurityVulnerability :=
  { id := "OLD-1", package := "flask", version_range := "<2.0", severity := "high",
    description := "old advisory", fixed_version := some "2.0", published_at := 3 }

def preSt : ScannerState := ⟨[sampleVuln], [sampleVuln]⟩

/-- C3 counterexample: a refresh that receives a non-success HTTP status leaves
the index untouched but is NOT reported to the caller as an error — the
function falls through to `Ok(())`, refuting the error-reporting part of the claim. -/
theorem c3_counterexample :
    (update_vulnerability_db preSt 7 (.resp false none)).1 = .ok () ∧
    (update_vulnerability_db preSt 7 (.resp false none)).2 = preSt :=
  ⟨rfl, rfl⟩

/-- C3 (amended): on a network error or a malformed payload the previous index
is left untouched and an error is reported, and scan results are unchanged; on
success the whole index (in memory and persisted) is replaced with the freshly
built list; on a non-success HTTP status the previous index is left untouched
but the call returns success without reporting an error. -/
theorem c3_refresh_atomicity (st : ScannerState) (now : Nat) :
    update_vulnerability_db st now .netErr = (.error "network error", st) ∧
    update_vulnerability_db st now (.resp true none) = (.error "malformed payload", st) ∧
    (∀ data, update_vulnerability_db st now (.resp true (some data)) =
        (.ok (), ⟨parseVulnList now data, parseVulnList now data⟩)) ∧
    (∀ body, update_vulnerability_db st now (.resp false body) = (.ok (), st)) ∧
    (∀ p v, scan_package (update_vulnerability_db st now .netErr).2.vulnerability_db p v =
        scan_package st.vulnerability_db p v) :=
  ⟨rfl, rfl, fun _ => rfl, fun _ => rfl, fun _ _ => rfl⟩

/-! ## C4: refresh hardcodes severity "medium" -/

/-- C4: every record produced by a refresh that received an HTTP success
status has severity exactly `"medium"` (security.rs line 67 hardcodes it; the
upstream severity is never parsed), so a gate blocking only on `"critical"`
can never fire on a refreshed record. -/
theorem c4_refresh_severity_always_medium (st : ScannerState) (now : Nat) (data : Json)
    (v : SecurityVulnerability)
    (hv : v ∈ (update_vulnerability_db st now (.resp true (some data))).2.vulnerability_db) :
    v.severity = "medium" ∧ v.severity ≠ "critical" := by
  have hdb : (update_vulnerability_db st now (.resp true (some data))).2.vulnerability_db =
      parseVulnList now data := rfl
  rw [hdb] at hv
  have hm := parseVulnList_severity now data v hv
  refine ⟨hm, ?_⟩
  rw [hm]
  decide

def c4Feed : Json :=
  .obj [("requests", .arr [.obj [("id", .str "PYSEC-1"),
                                 ("specs", .arr [.str "<2.0"]),
                                 ("advisory", .str "rce")]])]

def c4Parsed : SecurityVulnerability :=
  { id := "PYSEC-1", package := "requests", version_range := "<2.0",
    severity := "medium", description := "rce", fixed_version := none, published_at := 4 }

theorem c4_refresh_severity_always_medium_witness :
    c4Parsed ∈ (update_vulnerability_db preSt 4 (.resp true (some c4Feed))).2.vulnerability_db ∧
    c4Parsed.severity = "medium" :=
  ⟨by decide, (c4_refresh_severity_always_medium preSt 4 c4Feed c4Parsed (by decide)).1⟩

/-! ## C9: version-range matching -/

def advGe : SecurityVulnerability :=
  { id := "ADV-GE", package := "pkg", version_range := ">=1.5", severity := "high",
    description := "d", fixed_version := none, published_at := 0 }

def advLt : SecurityVulnerability :=
  { id := "ADV-LT", package := "pkg", version_range := "<1.0", severity := "high",
    description := "d", fixed_version := none, published_at := 0 }

/-- C9: the range match used by `scan_package` follows the lexicographic rule
of the specification exactly (`*` matches everything, the four comparison
operators compare under plain string ordering with maximal munch, any other
literal requires equality), and concretely `scan_package "pkg" "2.0"` returns
the `>=1.5` advisory but not the `<1.0` one. -/
theorem c9_range_matching :
    (∀ v r : String, version_matches v r = rangeMatchSpec v.data r.data) ∧
    scan_package [advGe] "pkg" "2.0" = [advGe] ∧
    scan_package [advLt] "pkg" "2.0" = [] :=
  ⟨fun v r => vmCore_eq_rangeMatchSpec v.data r.data, by decide, by decide⟩

/-! ## C5 and C6: cache-store lookup and round trip -/

theorem findRow_filter_key_none (db : List CachedPackage) (n v : String) :
    findRow (db.filter (fun r => !(keyMatches n v r))) n v = none := by
  rw [findRow, List.find?_eq_none]
  intro x hx
  rw [List.mem_filter] at hx
  simpa using hx.2

theorem find?_filter_append (l : List CachedPackage) (n v : String) (p : CachedPackage)
    (hp : keyMatches n v p = true) :
    ((l.filter (fun r => !(keyMatches n v r))) ++ [p]).find? (keyMatches n v) = some p := by
  induction l with
  | nil => simp [List.find?, hp]
  | cons a l ih =>
    rw [List.filter_cons]
    by_cases ha : keyMatches n v a = true
    · simpa [ha] using ih
    · rw [Bool.not_eq_true] at ha
      simp only [ha, Bool.not_false, if_pos, List.cons_append, List.find?_cons, ha]
      exact ih

theorem get_package_miss (st : CacheState) (n v : String)
    (h : findRow st.db n v = none) : get_package st n v = (none, st) := by
  simp [get_package, h]

theorem get_package_hit (st : CacheState) (n v : String) (row : CachedPackage)
    (h : findRow st.db n v = some row) (hm : row.file_path ∈ st.filesOnDisk) :
    get_package st n v = (some row, st) := by
  simp [get_package, h, hm]

theorem get_package_stale (st : CacheState) (n v : String) (row : CachedPackage)
    (h : findRow st.db n v = some row) (hm : ¬ row.file_path ∈ st.filesOnDisk) :
    (get_package st n v).1 = none ∧
    findRow ((get_package st n v).2).db n v = none := by
  refine ⟨?_, ?_⟩ <;>
    simp [get_package, h, hm, remove_package, findRow_filter_key_none]

/-- C5: `get_package` returns the row only when it exists and its artifact
file exists; a row whose file is gone yields `none` and, as a side effect,
the row itself is deleted, so the next lookup of the same key finds no row.
Absence is a returned `Option` value on every path, never an error. -/
theorem c5_lookup_self_healing (st : CacheState) (n v : String) :
    (findRow st.db n v = none → get_package st n v = (none, st)) ∧
    (∀ row, findRow st.db n v = some row →
        st.filesOnDisk.contains row.file_path = true →
        get_package st n v = (some row, st)) ∧
    (∀ row, findRow st.db n v = some row →
        st.filesOnDisk.contains row.file_path = false →
        (get_package st n v).1 = none ∧
        findRow ((get_package st n v).2).db n v = none) := by
  refine ⟨get_package_miss st n v, ?_, ?_⟩
  · intro row h hf
    exact get_package_hit st n v row h (by simpa using hf)
  · intro row h hf
    exact get_package_stale st n v row h (by simpa using hf)

def pmEmpty : PackageMetadata :=
  { description := "", author := "", license := "", dependencies := [],
    keywords := [], home_page := "" }

def staleRow : CachedPackage :=
  { name := "numpy", version := "1.26", hash := "h", download_url := "u",
    cached_at := 2, file_path := "/cache/numpy-1.26.whl", metadata := pmEmpty }

def staleSt : CacheState := ⟨"/cache", [staleRow], []⟩

theorem c5_lookup_self_healing_witness :
    (get_package staleSt "numpy" "1.26").1 = none ∧
    findRow ((get_package staleSt "numpy" "1.26").2).db "numpy" "1.26" = none :=
  (c5_lookup_self_healing staleSt "numpy" "1.26").2.2 staleRow (by decide) (by decide)

/-- C6: storing a record whose artifact file exists and then looking its key
up returns the stored record unchanged, and a second store with the same key
overwrites the first (last-write-wins upsert). -/
theorem c6_store_lookup_round_trip (st : CacheState) (p q : CachedPackage)
    (hp : st.filesOnDisk.contains p.file_path = true)
    (hqn : q.name = p.name) (hqv : q.version = p.version) :
    get_package (store_package st p) p.name p.version = (some p, store_package st p) ∧
    findRow (store_package (store_package st p) q).db p.name p.version = some q := by
  have hkey : keyMatches p.name p.version p = true := by simp [keyMatches]
  have hfind : findRow (store_package st p).db p.name p.version = some p :=
    find?_filter_append st.db p.name p.version p hkey
  constructor
  · have hm : p.file_path ∈ (store_package st p).filesOnDisk := by simpa using hp
    exact get_package_hit (store_package st p) p.name p.version p hfind hm
  · have hkq : keyMatches p.name p.version q = true := by simp [keyMatches, hqn, hqv]
    show (((store_package st p).db.filter
        (fun r => !(keyMatches q.name q.version r))) ++ [q]).find?
        (keyMatches p.name p.version) = some q
    rw [hqn, hqv]
    exact find?_filter_append (store_package st p).db p.name p.version q hkq

def rtFirst : CachedPackage :=
  { name := "requests", version := "2.31", hash := "sha-old", download_url := "m1",
    cached_at := 5, file_path := "/cache/requests-2.31.whl", metadata := pmEmpty }

def rtSecond : CachedPackage :=
  { name := "requests", version := "2.31", hash := "sha-new", download_url := "m2",
    cached_at := 9, file_path := "/cache/requests-2.31.whl", metadata := pmEmpty }

def rtSt : CacheState := ⟨"/cache", [], ["/cache/requests-2.31.whl"]⟩

theorem c6_store_lookup_round_trip_witness :
    get_package (store_package rtSt rtFirst) rtFirst.name rtFirst.version =
      (some rtFirst, store_package rtSt rtFirst) ∧
    findRow (store_package (store_package rtSt rtFirst) rtSecond).db
      rtFirst.name rtFirst.version = some rtSecond :=
  c6_store_lookup_round_trip rtSt rtFirst rtSecond (by decide) (by decide) (by decide)

/-! ## C7 and C8: mirror-registry invariants -/

theorem countDefault_clear (l : List Mirror) :
    countDefault (l.map (fun m => { m with is_default := false })) = 0 := by
  induction l with
  | nil => rfl
  | cons a l ih => simp [countDefault, List.filter_cons, ih]

theorem countDefault_append_one (l : List Mirror) (m : Mirror) :
    countDefault (l ++ [m]) = countDefault l + (if m.is_default then 1 else 0) := by
  cases hm : m.is_default <;>
    simp [countDefault, List.filter_append, List.filter_cons, hm]

theorem countDefault_add_true (ms : List Mirror) (n u : String) :
    countDefault (add_mirror ms n u true) = 1 := by
  simp [add_mirror, countDefault_append_one, countDefault_clear]

theorem countDefault_add_false (ms : List Mirror) (n u : String) :
    countDefault (add_mirror ms n u false) = countDefault ms := by
  simp [add_mirror, countDefault_append_one]

/-- C7: starting from any registry with at most one default mirror, any
sequence of `add_mirror` calls leaves at most one default mirror; moreover two
successive `add_mirror` calls with `set_default = true` leave exactly one
default mirror, from any starting registry and in either order of the two new
names. -/
theorem c7_at_most_one_default :
    (∀ (ms : List Mirror) (ops : List (String × String × Bool)),
        countDefault ms ≤ 1 → countDefault (applyAdds ms ops) ≤ 1) ∧
    (∀ (ms : List Mirror) (n1 u1 n2 u2 : String),
        countDefault (add_mirror (add_mirror ms n1 u1 true) n2 u2 true) = 1) := by
  constructor
  · intro ms ops
    induction ops generalizing ms with
    | nil => intro h; simpa [applyAdds] using h
    | cons op ops ih =>
      intro h
      rw [applyAdds, List.foldl_cons]
      refine ih (add_mirror ms op.1 op.2.1 op.2.2) ?_
      cases hb : op.2.2
      · rw [countDefault_add_false]; exact h
      · rw [countDefault_add_true]
  · intro ms n1 u1 n2 u2
    exact countDefault_add_true (add_mirror ms n1 u1 true) n2 u2

theorem c7_at_most_one_default_witness :
    countDefault (applyAdds [seedMirror]
      [("fastly", "https://fast.example/", true),
       ("eu", "https://eu.example/", true)]) ≤ 1 :=
  c7_at_most_one_default.1 [seedMirror]
    [("fastly", "https://fast.example/", true), ("eu", "https://eu.example/", true)]
    (by decide)

/-- C8 counterexample: `remove_mirror` does not preserve non-emptiness — on
the seeded registry, removing the name of the sole built-in mirror leaves an
empty registry, refuting the claim that every registry operation preserves at
least one mirror. -/
theorem c8_counterexample :
    remove_mirror (mirrorManagerNew .absent) "pypi" = [] := by decide

/-- C8 (amended): `MirrorManager::new` seeds exactly one built-in default,
active mirror at the canonical index when the persisted configuration file is
absent or unparseable, and `add_mirror` always grows the registry by one, so
it preserves non-emptiness; but `remove_mirror` removes every mirror with the
given name with no floor, and a parseable configuration file containing an
empty list yields an empty registry. -/
theorem c8_seeding_amended :
    mirrorManagerNew .absent = [seedMirror] ∧
    mirrorManagerNew .unparseable = [seedMirror] ∧
    (seedMirror.is_default = true ∧ seedMirror.is_active = true ∧
      seedMirror.url = "https://pypi.org/simple/") ∧
    (∀ (ms : List Mirror) (n u : String) (d : Bool),
        (add_mirror ms n u d).length = ms.length + 1) ∧
    mirrorManagerNew (.parsed []) = [] := by
  refine ⟨rfl, rfl, ⟨rfl, rfl, rfl⟩, ?_, rfl⟩
  intro ms n u d
  cases d <;> simp [add_mirror]

/-! ## C1 and C2: the acquisition pipeline ignores its collaborators -/

def envAllOk : ExecEnv := ⟨true, fun _ => true⟩

def emptyCache : CacheState := ⟨"/cache", [], []⟩

def pipeSt0 : PipelineState := ⟨none, true, emptyCache⟩

def badPkgAdvisory : SecurityVulnerability :=
  { id := "SA-2024-0001", package := "bad-pkg", version_range := "*",
    severity := "critical", description := "known bad", fixed_version := none,
    published_at := 0 }

def c1Run : Except String Unit × PipelineState × List PipeEvent :=
  install_package_with_cache "bad-pkg" envAllOk (mirrorManagerNew .absent)
    [badPkgAdvisory] false pipeSt0

/-- C1 (code evaluated at the failing input): with a `critical` advisory for
`"bad-pkg"` covering range `*` in the vulnerability database and the
skip-security flag NOT set, `install_package_with_cache` still invokes the
installer and succeeds; it never runs the security scan (the trace has no
`securityScan` event, matching the source, which never calls `scan_package`),
so the Blocked-By-Security outcome is unreachable, refuting the claim.  The
scanner itself would have flagged the package, as the first conjunct shows. -/
theorem c1_security_gate_not_enforced :
    scan_package [badPkgAdvisory] "bad-pkg" "latest" = [badPkgAdvisory] ∧
    badPkgAdvisory.severity = "critical" ∧
    c1Run.1 = .ok () ∧
    (c1Run.2.2).contains PipeEvent.pipInstall = true ∧
    (c1Run.2.2).contains PipeEvent.securityScan = false ∧
    c1Run.2.1.cache = pipeSt0.cache :=
  ⟨by decide, rfl, rfl, by decide, by decide, rfl⟩

def reqRecord : CachedPackage :=
  { name := "requests", version := "latest", hash := "h", download_url := "u",
    cached_at := 0, file_path := "/cache/requests-latest.whl", metadata := pmEmpty }

def hitCache : CacheState := ⟨"/cache", [reqRecord], ["/cache/requests-latest.whl"]⟩

def pipeStHit : PipelineState := ⟨none, true, hitCache⟩

def c2RunHit : Except String Unit × PipelineState × List PipeEvent :=
  install_package_with_cache "requests" envAllOk (mirrorManagerNew .absent)
    [] false pipeStHit

def c2RunEmpty : Except String Unit × PipelineState × List PipeEvent :=
  install_package_with_cache "requests" envAllOk (mirrorManagerNew .absent)
    [] false pipeSt0

/-- C2 (code evaluated at the failing input): the cache store holds a valid
record for `("requests", "latest")` whose artifact exists (a lookup would hit,
first conjunct), yet `install_package_with_cache` runs the installer anyway,
never consults the cache, and leaves it unchanged; and starting from an empty
cache, a successful install writes no `CachedPackage` record, so an
immediately repeated identical request cannot be served from the cache.  This
refutes both halves of the claim. -/
theorem c2_cache_never_consulted :
    (get_package hitCache "requests" "latest").1 = some reqRecord ∧
    c2RunHit.1 = .ok () ∧
    (c2RunHit.2.2).contains PipeEvent.cacheLookup = false ∧
    (c2RunHit.2.2).contains PipeEvent.pipInstall = true ∧
    c2RunHit.2.1.cache = hitCache ∧
    c2RunEmpty.1 = .ok () ∧
    c2RunEmpty.2.1.cache.db = [] ∧
    (c2RunEmpty.2.2).contains PipeEvent.cacheWrite = false :=
  ⟨by decide, rfl, by decide, by decide, rfl, rfl, rfl, by decide⟩

/-! ## C10: ephemeral-container cleanup -/

def envLogsFail : DockerExec :=
  { createOk := true, startOk := true, logsOk := false, removeOk := true,
    cmdExitZero := false }

/-- C10 counterexample: a container that is successfully created and started
but whose log stream yields a transport error is never removed — the error
propagates with `?` before the `remove_container` call, leaking the
container and refuting the unconditional-removal claim. -/
theorem c10_counterexample :
    envLogsFail.createOk = true ∧ envLogsFail.startOk = true ∧
    (execute_in_environment envLogsFail).1 = .error "logs failed" ∧
    ((execute_in_environment envLogsFail).2).contains DockerEvent.removeContainer = false :=
  ⟨rfl, rfl, rfl, by decide⟩

/-- C10 (amended): once the container is created and started, removal is
attempted if and only if the log stream completes without a transport error;
the exit status of the executed command is never inspected by the function, so a
failing command (with an intact log stream) still ends in removal, but a log
streaming error returns early and leaks the container. -/
theorem c10_removal_amended (env : DockerExec)
    (hc : env.createOk = true) (hs : env.startOk = true) :
    (env.logsOk = true →
      ((execute_in_environment env).2).contains DockerEvent.removeContainer = true) ∧
    (env.logsOk = false →
      ((execute_in_environment env).2).contains DockerEvent.removeContainer = false) := by
  obtain ⟨c, s, l, r, z⟩ := env
  simp only at hc hs
  subst hc
  subst hs
  cases l <;> cases r <;> cases z <;> decide

def envCmdFails : DockerExec :=
  { createOk := true, startOk := true, logsOk := true, removeOk := true,
    cmdExitZero := false }

theorem c10_removal_amended_witness :
    ((execute_in_environment envCmdFails).2).contains DockerEvent.removeContainer = true :=
  (c10_removal_amended envCmdFails (by decide) (by decide)).1 (by decide)

end SA
